import Mathlib

/-!
# Zenroom module resolver (`src/lua_modules.c`)

A shallow embedding of `src/src/lua_modules.c`: the classic library table, the
extension registry, the bytecode loader, the `require` hook, the `exitcode`
setter, the installer of both and the bootstrap.

The file is embedded as built for a native target in a release build: the
`#else` branch of `__EMSCRIPTEN__` in `zen_exec_extension`, `SAFE(x)` on the
non-null pointers it is given and the `HEREs` debugging aid have no effect.

Everything the file takes from outside (the Lua interpreter, the generated
extension table) is gathered in `Host`.  The calls the file makes into the Lua
API are recorded, in order, in `World.trace`; what the interpreter does while
it runs a chunk is not part of the model.
-/

namespace Zenroom

/-! ## Data model -/

/-- The C functions this file refers to by address. -/
inductive CFunction
  | luaopen_coroutine | luaopen_table | luaopen_string | luaopen_math
  | luaopen_utf8 | luaopen_debug
  | luaopen_octet | luaopen_ecdh | luaopen_ecp | luaopen_ecp2
  | luaopen_fp12 | luaopen_big | luaopen_hash
  | zen_exitcode | zen_require | nop
  deriving DecidableEq, Repr

/-- A `lua_Number` (C `double`).  A finite double is `m * 2 ^ e` for integers
`m` and `e`; every such dyadic number is admitted, which covers all doubles. -/
inductive lua_Number
  | finite (m : Int) (e : Int)
  | inf (negative : Bool)
  | nan
  deriving DecidableEq, Repr

/-- A Lua value as seen through the C API. -/
inductive TValue
  | nil
  | boolean (b : Bool)
  | integer (i : Int)
  | float (n : lua_Number)
  /-- a string, given by the characters before its first NUL byte, which is
  all the C code of this file reads of it -/
  | string (s : String)
  | cfunction (f : CFunction)
  /-- the table of globals -/
  | globals
  /-- any other object (table, closure, userdata, thread), by identity -/
  | object (id : Nat)
  deriving DecidableEq, Repr

/-- One call into the Lua API or the logging layer, with its arguments. -/
inductive Event
  | func (msg : String)
  | warning (msg : String)
  | error (msg : String)
  | lerror (msg : String)
  | luaL_loadbufferx (code : List Nat) (size : Nat) (name : String) (mode : Option String)
  | lua_call (nargs nresults : Int)
  | luaL_requiref (modname : String) (openf : CFunction) (glb : Int)
  | lua_gc (what data : Int)
  deriving DecidableEq, Repr

/-- An entry of `zen_extensions` (`zen_extension_t`): name, `*size`, `code`. -/
structure zen_extension_t where
  name : String
  size : Nat
  code : List Nat
  deriving DecidableEq, Repr

/-- An entry of a `luaL_Reg` array. -/
structure luaL_Reg where
  name : String
  func : CFunction
  deriving DecidableEq, Repr

/-- How a call of a C function ends. -/
inductive Outcome
  /-- the function returned the given `int` -/
  | returned (n : Int)
  /-- control left through `lerror` and never came back -/
  | fatal
  /-- a Lua error raised by the called chunk went through the unprotected
  `lua_call` and left the function -/
  | raised (err : TValue)
  /-- the C standard gives the execution no meaning -/
  | undefined
  deriving DecidableEq, Repr

/-- The result of running a compiled chunk with no argument and one result. -/
inductive CallResult
  | value (v : TValue)
  | error (err : TValue)
  deriving DecidableEq, Repr

/-- What this file takes from outside.  `zen_extensions` holds the entries
before the `NULL` name that ends the generated table. -/
structure Host where
  /-- whether the build defines `LUA_COMPILED` -/
  LUA_COMPILED : Bool
  zen_extensions : List zen_extension_t
  /-- status returned by `luaL_loadbufferx` and the value it pushes: the
  compiled chunk, or the error message -/
  luaL_loadbufferx : List Nat → Nat → String → Option String → Int × TValue
  /-- running the function on top of the stack with no argument -/
  run : TValue → CallResult
  /-- the module an open function returns when called with the module name -/
  luaopen : CFunction → String → TValue
  /-- the number the interpreter reads in a string, when it reads one -/
  str2num : String → Option lua_Number
  /-- the text the interpreter gives a number -/
  tostringbuff : TValue → String

/-- The Lua state `L` together with the C global `EXITCODE`.  `stack` is the
frame of the running C function, index 1 first, top last. -/
structure World where
  stack : List TValue
  globals : List (String × TValue)
  loaded : List (String × TValue)
  EXITCODE : Int
  trace : List Event
  deriving DecidableEq, Repr

/-! ## Constants of `lua.h` (Lua 5.3) -/

def LUA_OK : Int := 0
def LUA_ERRSYNTAX : Int := 3
def LUA_ERRMEM : Int := 4
def LUA_ERRGCMM : Int := 5
def LUA_GCCOLLECT : Int := 2

/-- Least value of a C `int` (32 bits). -/
def INT_MIN : Int := -2147483648
/-- Greatest value of a C `int` (32 bits). -/
def INT_MAX : Int := 2147483647

/-! ## libc -/

/-- Comparison of two strings character by character, as `strcmp` walks them:
zero when both end together, else the sign of the first difference. -/
def strcmp_chars : List Char → List Char → Int
  | [], [] => 0
  | [], _ :: _ => -1
  | _ :: _, [] => 1
  | a :: as, b :: bs =>
    if a = b then strcmp_chars as bs else if a.toNat < b.toNat then -1 else 1

/-- The libc `strcmp`. -/
def strcmp (a b : String) : Int := strcmp_chars a.data b.data

/-- The libc `tolower` in the C locale. -/
def tolower (c : Char) : Char := c.toLower

/-- A string with every character through `tolower`. -/
def lowercase (s : String) : String := String.mk (s.data.map tolower)

/-- The libc `strcasecmp`: `strcmp` after `tolower` on every character. -/
def strcasecmp (a b : String) : Int := strcmp (lowercase a) (lowercase b)

/-- The conversion `(int)n` of a `double`: the value with its fraction
discarded when that fits an `int`; the C standard defines nothing otherwise. -/
def c_int_of_double : lua_Number → Option Int
  | lua_Number.finite m e =>
    let t : Int := if 0 ≤ e then m * 2 ^ e.toNat else Int.tdiv m (2 ^ (-e).toNat)
    if INT_MIN ≤ t ∧ t ≤ INT_MAX then some t else none
  | lua_Number.inf _ => none
  | lua_Number.nan => none

/-- What `printf` shows for `%s` (glibc prints `(null)` for a null pointer). -/
def fmt_s : Option String → String
  | some s => s
  | none => "(null)"

/-! ## Logging layer (`jutils.h`, `zen_error.h`) -/

/-- Debug-level log line. -/
def func (w : World) (msg : String) : World :=
  { w with trace := w.trace ++ [Event.func msg] }

/-- Warning log line. -/
def warning (w : World) (msg : String) : World :=
  { w with trace := w.trace ++ [Event.warning msg] }

/-- Error log line. -/
def error (w : World) (msg : String) : World :=
  { w with trace := w.trace ++ [Event.error msg] }

/-- Modelled from the spec: `lerror` is declared in `zen_error.h`, which is not
among the sources.  It emits the message and aborts the process (the call site
in `zen_exec_extension` notes "quits with SIGABRT"), so no statement after it
is reached. -/
def lerror (w : World) (msg : String) : Outcome × World :=
  (Outcome.fatal, { w with trace := w.trace ++ [Event.lerror msg] })

/-! ## Lua API, after the Lua 5.3 reference manual -/

/-- The value at an acceptable stack index, if any. -/
def index2value (w : World) (idx : Int) : Option TValue :=
  if 0 < idx then w.stack.get? (idx.toNat - 1)
  else if idx < 0 ∧ (-idx).toNat ≤ w.stack.length then
    w.stack.get? (w.stack.length - (-idx).toNat)
  else none

/-- The position in `stack` of an acceptable index. -/
def slot (w : World) (idx : Int) : Nat :=
  if 0 < idx then idx.toNat - 1 else w.stack.length - (-idx).toNat

/-- The API function `lua_tolstring`: the string at the index; a number there is first turned
into a string in place; `NULL` for anything else. -/
def lua_tolstring (h : Host) (w : World) (idx : Int) : Option String × World :=
  match index2value w idx with
  | some (TValue.string s) => (some s, w)
  | some (TValue.integer i) =>
    let s := h.tostringbuff (TValue.integer i)
    (some s, { w with stack := List.set w.stack (slot w idx) (TValue.string s) })
  | some (TValue.float n) =>
    let s := h.tostringbuff (TValue.float n)
    (some s, { w with stack := List.set w.stack (slot w idx) (TValue.string s) })
  | _ => (none, w)

/-- The macro `lua_tostring(L, i)` is `lua_tolstring(L, i, NULL)`. -/
def lua_tostring (h : Host) (w : World) (idx : Int) : Option String × World :=
  lua_tolstring h w idx

/-- The API function `lua_tonumberx`: the number at the index and whether there is one; numbers
and strings the interpreter reads as numbers qualify; `0` otherwise. -/
def lua_tonumberx (h : Host) (w : World) (idx : Int) : lua_Number × Int :=
  match index2value w idx with
  | some (TValue.integer i) => (lua_Number.finite i 0, 1)
  | some (TValue.float n) => (n, 1)
  | some (TValue.string s) =>
    match h.str2num s with
    | some n => (n, 1)
    | none => (lua_Number.finite 0 0, 0)
  | _ => (lua_Number.finite 0 0, 0)

/-- The API function `lua_toboolean`: false for `nil` and `false` only. -/
def lua_toboolean : TValue → Bool
  | TValue.nil => false
  | TValue.boolean b => b
  | _ => true

/-- Assignment `t[k] = v` on a table kept as an association list. -/
def setfield (t : List (String × TValue)) (k : String) (v : TValue) :
    List (String × TValue) :=
  (k, v) :: t.filter (fun kv => kv.1 != k)

/-- Reading `t[k]`. -/
def getfield (t : List (String × TValue)) (k : String) : Option TValue :=
  t.lookup k

/-- The API function `lua_getglobal`, in a state where the base library is open, so that the
global `_G` is the table of globals itself. -/
def lua_getglobal (w : World) (name : String) : World :=
  { w with stack := w.stack ++
      [if name = "_G" then TValue.globals else (getfield w.globals name).getD TValue.nil] }

/-- The API function `lua_pop`. -/
def lua_pop (w : World) (n : Nat) : World :=
  { w with stack := w.stack.take (w.stack.length - n) }

/-- The API function `luaL_setfuncs` with no upvalue: every function of the array is stored
under its name in the table on top of the stack. -/
def luaL_setfuncs (w : World) (l : List luaL_Reg) (nup : Nat) : World :=
  match nup, w.stack.getLast? with
  | 0, some TValue.globals =>
    { w with globals :=
        l.foldl (fun g r => setfield g r.name (TValue.cfunction r.func)) w.globals }
  | _, _ => w

/-- The API function `luaL_requiref`: unless `package.loaded[modname]` is already true, `openf`
is called with `modname` and its result stored there; with `glb` the module is
also stored in the global `modname`; a copy of the module is left on the
stack. -/
def luaL_requiref (h : Host) (w : World) (modname : String) (openf : CFunction)
    (glb : Int) : World :=
  let w0 : World := { w with trace := w.trace ++ [Event.luaL_requiref modname openf glb] }
  let old : TValue := (getfield w0.loaded modname).getD TValue.nil
  let module : TValue := if lua_toboolean old then old else h.luaopen openf modname
  let w1 : World :=
    if lua_toboolean old then w0 else { w0 with loaded := setfield w0.loaded modname module }
  let w2 : World :=
    if glb ≠ 0 then { w1 with globals := setfield w1.globals modname module } else w1
  { w2 with stack := w2.stack ++ [module] }

/-- The API function `lua_gc`. -/
def lua_gc (w : World) (what data : Int) : World :=
  { w with trace := w.trace ++ [Event.lua_gc what data] }

/-- The API function `lua_call` for a function on top of the stack with no argument
(`nargs = 0`): the function is replaced by its result; an error inside it is
propagated upwards, which the first component reports. -/
def lua_call (h : Host) (w : World) (nargs nresults : Int) : Option TValue × World :=
  let w0 : World := { w with trace := w.trace ++ [Event.lua_call nargs nresults] }
  match h.run (w0.stack.getLast?.getD TValue.nil) with
  | CallResult.value v =>
    (none, { w0 with stack := w0.stack.dropLast ++ (if nresults = 1 then [v] else []) })
  | CallResult.error err => (some err, w0)

/-! ## `lua_modules.c` -/

/-- The table `lualibs`, up to its `{NULL, NULL}` end; the names are those of
`lualib.h`. -/
def lualibs : List luaL_Reg :=
  [ ⟨"coroutine", CFunction.luaopen_coroutine⟩,
    ⟨"table", CFunction.luaopen_table⟩,
    ⟨"string", CFunction.luaopen_string⟩,
    ⟨"math", CFunction.luaopen_math⟩,
    ⟨"utf8", CFunction.luaopen_utf8⟩,
    ⟨"debug", CFunction.luaopen_debug⟩ ]

/-- The `mode` argument of the load: `"b"` under `LUA_COMPILED`, else `NULL`. -/
def load_mode (h : Host) : Option String :=
  if h.LUA_COMPILED then some "b" else none

/-- The function `zen_load_string`: loads the buffer under `name`, logs the three named
failures and returns the status of the load. -/
def zen_load_string (h : Host) (w : World) (code : List Nat) (size : Nat)
    (name : String) : Int × World :=
  let mode : Option String := load_mode h
  let res : Int := (h.luaL_loadbufferx code size name mode).1
  let w1 : World :=
    { w with
      stack := w.stack ++ [(h.luaL_loadbufferx code size name mode).2]
      trace := w.trace ++ [Event.luaL_loadbufferx code size name mode] }
  if res = LUA_OK then (res, w1)
  else if res = LUA_ERRSYNTAX then
    (res, error w1 ("zen_load_string syntax error: " ++ name))
  else if res = LUA_ERRMEM then
    (res, error w1 ("zen_load_string out of memory: " ++ name))
  else if res = LUA_ERRGCMM then
    (res, error w1 ("zen_load_string garbage collection error: " ++ name))
  else (res, w1)

/-- The function `zen_exec_extension`: loads the blob of `p`; when the load is `LUA_OK` the
chunk is called with no argument for one result and `1` is returned; otherwise
the message on top of the stack is logged and `lerror` ends the process. -/
def zen_exec_extension (h : Host) (w : World) (p : zen_extension_t) : Outcome × World :=
  let r := zen_load_string h w p.code p.size p.name
  if r.1 = LUA_OK then
    match lua_call h r.2 0 1 with
    | (none, w2) => (Outcome.returned 1, func w2 ("loaded " ++ p.name))
    | (some err, w2) => (Outcome.raised err, w2)
  else
    let m := lua_tostring h r.2 (-1)
    lerror (error m.2 (fmt_s m.1)) ("zen_exec_extension " ++ p.name)

/-- The function `nop`: the `require` of restricted mode. -/
def nop (w : World) : Outcome × World :=
  lerror w "illegal instruction: require"

/-- The chain of `strcasecmp` tests of `zen_require` on the native modules:
the open function selected for `s`, if any. -/
def native_loader (s : String) : Option CFunction :=
  if strcasecmp s "octet" = 0 then some CFunction.luaopen_octet
  else if strcasecmp s "ecdh" = 0 then some CFunction.luaopen_ecdh
  else if strcasecmp s "ecp" = 0 then some CFunction.luaopen_ecp
  else if strcasecmp s "ecp2" = 0 then some CFunction.luaopen_ecp2
  else if strcasecmp s "big" = 0 then some CFunction.luaopen_big
  else if strcasecmp s "fp12" = 0 then some CFunction.luaopen_fp12
  else if strcasecmp s "hash" = 0 then some CFunction.luaopen_hash
  else none

/-- The function `zen_require`: the `require` of unrestricted mode.  The first loop is the
scan of `lualibs` with `strcmp`, the second the scan of `zen_extensions` with
`strcasecmp`; both leave at their first match. -/
def zen_require (h : Host) (w : World) : Outcome × World :=
  match lua_tolstring h w 1 with
  | (none, w0) => (Outcome.returned 0, w0)
  | (some s, w0) =>
    match lualibs.find? (fun p => strcmp p.name s = 0) with
    | some p => (Outcome.returned 1, luaL_requiref h w0 p.name p.func 1)
    | none =>
      match h.zen_extensions.find? (fun p => strcasecmp p.name s = 0) with
      | some p => zen_exec_extension h w0 p
      | none =>
        match native_loader s with
        | some openf =>
          (Outcome.returned 1, func (luaL_requiref h w0 s openf 1) ("loaded " ++ s))
        | none =>
          (Outcome.returned 0, warning w0 ("required extension not found: " ++ s))

/-- The function `zen_exitcode`: stores the argument in `EXITCODE` when it is a number and
`-1` when it is not. -/
def zen_exitcode (h : Host) (w : World) : Outcome × World :=
  let n := lua_tonumberx h w 1
  if n.2 ≠ 0 then
    match c_int_of_double n.1 with
    | some i => (Outcome.returned 0, { w with EXITCODE := i })
    | none => (Outcome.undefined, w)
  else (Outcome.returned 0, { w with EXITCODE := -1 })

/-- The array `custom_require` of `zen_require_override`. -/
def custom_require : List luaL_Reg :=
  [ ⟨"exitcode", CFunction.zen_exitcode⟩, ⟨"require", CFunction.zen_require⟩ ]

/-- The array `custom_require_restricted` of `zen_require_override`. -/
def custom_require_restricted : List luaL_Reg :=
  [ ⟨"exitcode", CFunction.zen_exitcode⟩, ⟨"require", CFunction.nop⟩ ]

/-- The function `zen_require_override`: stores one of the two arrays in the globals. -/
def zen_require_override (w : World) (restricted : Int) : Int × World :=
  let w1 := lua_getglobal w "_G"
  let w2 :=
    if restricted ≠ 0 then luaL_setfuncs w1 custom_require_restricted 0
    else luaL_setfuncs w1 custom_require 0
  (1, lua_pop w2 1)

/-- The function `zen_lua_init`: runs the first extension whose name is `init` in any
letter case and returns what `zen_exec_extension` returns; when the scan ends
without one, collects twice and ends in `lerror`. -/
def zen_lua_init (h : Host) (w : World) : Outcome × World :=
  let w0 := func w "loading lua initialisation"
  match h.zen_extensions.find? (fun p => strcasecmp p.name "init" = 0) with
  | some p => zen_exec_extension h w0 p
  | none =>
    let w1 := lua_gc w0 LUA_GCCOLLECT 0
    let w2 := lua_gc w1 LUA_GCCOLLECT 0
    lerror w2 "Error loading lua init script"

/-! ## Calls from the script -/

/-- The body of a C function of this file; `none` for the open functions,
whose bodies are elsewhere. -/
def call_cfunction (h : Host) (w : World) : CFunction → Option (Outcome × World)
  | CFunction.zen_exitcode => some (zen_exitcode h w)
  | CFunction.zen_require => some (zen_require h w)
  | CFunction.nop => some (nop w)
  | _ => none

/-- A call `name(args)` by the script: the global `name` is read and, when it
holds a C function of this file, that function runs on a frame made of the
arguments. -/
def call_global (h : Host) (w : World) (name : String) (args : List TValue) :
    Option (Outcome × World) :=
  match getfield w.globals name with
  | some (TValue.cfunction f) => call_cfunction h { w with stack := args } f
  | _ => none

/-! ## Vocabulary of the statements -/

/-- The names tested by the chain of `zen_require`, in its order. -/
def native_names : List String :=
  ["octet", "ecdh", "ecp", "ecp2", "big", "fp12", "hash"]

/-- The rational value of the finite number `m * 2 ^ e`. -/
def dyadic (m e : Int) : ℚ := (m : ℚ) * (2 : ℚ) ^ e

/-- A rational with its fraction discarded, that is rounded toward zero. -/
def truncate (q : ℚ) : Int := if 0 ≤ q then ⌊q⌋ else ⌈q⌉

/-- Whether the event is a call of `lua_gc`. -/
def Event.is_gc : Event → Bool
  | Event.lua_gc _ _ => true
  | _ => false

/-- Whether the event is a call of `lua_call`. -/
def Event.is_call : Event → Bool
  | Event.lua_call _ _ => true
  | _ => false

/-- Whether the process is aborted by a C function that the host runs outside
any protected call: through `lerror`, or through a Lua error, for which Lua
then calls its panic function and `abort` (reference manual, 4.6). -/
def Outcome.aborts : Outcome → Bool
  | Outcome.fatal => true
  | Outcome.raised _ => true
  | _ => false

/-- The end of a run in which the blob of `p` did not load, as seen from the
world `before` the loader was entered: the outcome is the abort of `lerror`,
and after the load only error lines were written, at least one, the last of
them the message the load left on the stack when that is a string, followed by
the `lerror` of `zen_exec_extension`. -/
def LoadFailureAbort (h : Host) (p : zen_extension_t) (before : World)
    (r : Outcome × World) : Prop :=
  r.1 = Outcome.fatal ∧
  ∃ errs : List String, errs ≠ [] ∧
    (∀ s, (h.luaL_loadbufferx p.code p.size p.name (load_mode h)).2 = TValue.string s →
      errs.getLast? = some s) ∧
    r.2.trace = before.trace ++
      Event.luaL_loadbufferx p.code p.size p.name (load_mode h) ::
        (errs.map Event.error ++ [Event.lerror ("zen_exec_extension " ++ p.name)])

/-! ## Concrete hosts -/

/-- A host for the examples: a blob of size zero does not compile, the chunk
of a blob of size one raises an error when run, any other runs to a value. -/
def demo_host : Host :=
  { LUA_COMPILED := false
    zen_extensions := [⟨"init", 3, [27, 76, 117]⟩, ⟨"json", 2, [27, 76]⟩, ⟨"broken", 0, []⟩]
    luaL_loadbufferx := fun _ size name _ =>
      if size = 0 then (LUA_ERRSYNTAX, TValue.string (name ++ ":1: unexpected symbol"))
      else (LUA_OK, TValue.object size)
    run := fun f =>
      if f = TValue.object 1 then CallResult.error (TValue.string "attempt to call a nil value")
      else CallResult.value (TValue.object 100)
    luaopen := fun _ _ => TValue.object 7
    str2num := fun _ => none
    tostringbuff := fun _ => "0" }

/-- The example host with a registry that has no `init`. -/
def host_without_init : Host :=
  { demo_host with zen_extensions := [⟨"json", 2, [27, 76]⟩, ⟨"broken", 0, []⟩] }

/-- The example host with an `init` whose blob does not compile. -/
def host_init_broken : Host :=
  { demo_host with zen_extensions := [⟨"json", 2, [27, 76]⟩, ⟨"Init", 0, []⟩] }

/-- The example host with an `init` whose chunk raises an error. -/
def host_init_raising : Host :=
  { demo_host with zen_extensions := [⟨"json", 2, [27, 76]⟩, ⟨"Init", 1, [27]⟩] }

/-- The example host with an extension that bears the name of a classic
library. -/
def host_shadow : Host :=
  { demo_host with zen_extensions := [⟨"table", 2, [27, 76]⟩, ⟨"ECDH", 2, [27, 76]⟩] }

/-- A world with nothing on the stack, no global and no log. -/
def empty_world : World := ⟨[], [], [], 0, []⟩

/-- The empty world with the given arguments on the stack. -/
def world_with (args : List TValue) : World := ⟨args, [], [], 0, []⟩

/-! ## Lemmas on the string functions -/

theorem find_lualibs (p : luaL_Reg) (hp : p ∈ lualibs) :
    lualibs.find? (fun q => strcmp q.name p.name = 0) = some p := by
  simp only [lualibs, List.mem_cons, List.mem_singleton, List.not_mem_nil, or_false] at hp
  rcases hp with rfl | rfl | rfl | rfl | rfl | rfl <;> decide

theorem find_no_classic (n : String) (hclassic : ∀ p ∈ lualibs, strcmp p.name n ≠ 0) :
    lualibs.find? (fun p => strcmp p.name n = 0) = none := by
  rw [List.find?_eq_none]
  intro p hp
  simpa using hclassic p hp

theorem find_first_match (l pre post : List zen_extension_t) (p : zen_extension_t)
    (s : String) (hreg : l = pre ++ p :: post)
    (hpre : ∀ q ∈ pre, strcasecmp q.name s ≠ 0) (hp : strcasecmp p.name s = 0) :
    l.find? (fun q => strcasecmp q.name s = 0) = some p := by
  rw [List.find?_eq_some]
  refine ⟨by simpa using hp, pre, post, hreg, ?_⟩
  intro q hq
  simpa using hpre q hq

theorem native_loader_none (n : String) (hn : ∀ m ∈ native_names, strcasecmp n m ≠ 0) :
    native_loader n = none := by
  simp only [native_names, List.mem_cons, List.mem_singleton, List.not_mem_nil, or_false,
    forall_eq_or_imp, forall_eq] at hn
  simp [native_loader, hn]

theorem getfield_setfield (t : List (String × TValue)) (k : String) (v : TValue) :
    getfield (setfield t k v) k = some v := by
  simp [getfield, setfield, List.lookup]

theorem lua_tolstring_string (h : Host) (w : World) (s : String) (rest : List TValue)
    (hw : w.stack = TValue.string s :: rest) :
    lua_tolstring h w 1 = (some s, w) := by
  simp [lua_tolstring, index2value, hw]

theorem lua_tolstring_trace (h : Host) (w : World) (idx : Int) :
    (lua_tolstring h w idx).2.trace = w.trace := by
  unfold lua_tolstring
  split <;> rfl

theorem lua_tolstring_top_string (h : Host) (w : World) (s : String) (st : List TValue)
    (hw : w.stack = st ++ [TValue.string s]) :
    (lua_tolstring h w (-1)).1 = some s := by
  simp [lua_tolstring, index2value, hw]

/-! ## Lemmas on `lua_modules.c` -/

theorem zen_require_override_restricted (w : World) (restricted : Int)
    (hr : restricted ≠ 0) :
    zen_require_override w restricted =
      (1, { w with globals := (custom_require_restricted.foldl
        (fun g r => setfield g r.name (TValue.cfunction r.func)) w.globals) }) := by
  simp [zen_require_override, hr, lua_getglobal, luaL_setfuncs, lua_pop]

theorem zen_load_string_spec (h : Host) (w : World) (code : List Nat) (size : Nat)
    (name : String) :
    (zen_load_string h w code size name).1
      = (h.luaL_loadbufferx code size name (load_mode h)).1 ∧
    ∃ named : List String, (zen_load_string h w code size name).2 =
      { w with
        stack := w.stack ++ [(h.luaL_loadbufferx code size name (load_mode h)).2]
        trace := w.trace ++
          Event.luaL_loadbufferx code size name (load_mode h) :: named.map Event.error } := by
  unfold zen_load_string
  simp only []
  split
  · exact ⟨rfl, [], by simp⟩
  · split
    · exact ⟨rfl, [_], by simp [error]; rfl⟩
    · split
      · exact ⟨rfl, [_], by simp [error]; rfl⟩
      · split
        · exact ⟨rfl, [_], by simp [error]; rfl⟩
        · exact ⟨rfl, [], by simp⟩

theorem zen_exec_extension_ok (h : Host) (w : World) (p : zen_extension_t) (v : TValue)
    (hload : (h.luaL_loadbufferx p.code p.size p.name (load_mode h)).1 = LUA_OK)
    (hrun : h.run (h.luaL_loadbufferx p.code p.size p.name (load_mode h)).2
      = CallResult.value v) :
    zen_exec_extension h w p = (Outcome.returned 1,
      { w with
        stack := w.stack ++ [v]
        trace := w.trace ++ [Event.luaL_loadbufferx p.code p.size p.name (load_mode h),
          Event.lua_call 0 1, Event.func ("loaded " ++ p.name)] }) := by
  simp [zen_exec_extension, zen_load_string, hload, lua_call, hrun, func]

theorem zen_exec_extension_raised (h : Host) (w : World) (p : zen_extension_t)
    (err : TValue)
    (hload : (h.luaL_loadbufferx p.code p.size p.name (load_mode h)).1 = LUA_OK)
    (hrun : h.run (h.luaL_loadbufferx p.code p.size p.name (load_mode h)).2
      = CallResult.error err) :
    zen_exec_extension h w p = (Outcome.raised err,
      { w with
        stack := w.stack ++ [(h.luaL_loadbufferx p.code p.size p.name (load_mode h)).2]
        trace := w.trace ++ [Event.luaL_loadbufferx p.code p.size p.name (load_mode h),
          Event.lua_call 0 1] }) := by
  simp [zen_exec_extension, zen_load_string, hload, lua_call, hrun]

theorem zen_exec_extension_failed (h : Host) (w : World) (p : zen_extension_t)
    (hfail : (h.luaL_loadbufferx p.code p.size p.name (load_mode h)).1 ≠ LUA_OK) :
    LoadFailureAbort h p w (zen_exec_extension h w p) := by
  obtain ⟨hres, named, hw⟩ := zen_load_string_spec h w p.code p.size p.name
  unfold LoadFailureAbort
  simp only [zen_exec_extension, hres, if_neg hfail, lerror, error, lua_tostring,
    lua_tolstring_trace]
  refine ⟨trivial,
    named ++ [fmt_s (lua_tolstring h (zen_load_string h w p.code p.size p.name).2 (-1)).1],
    by simp, ?_, ?_⟩
  · intro s hs
    rw [lua_tolstring_top_string h _ s w.stack (by rw [hw, hs])]
    simp [fmt_s]
  · rw [hw]
    simp

theorem zen_require_extension (h : Host) (w : World) (n : String) (rest : List TValue)
    (pre post : List zen_extension_t) (p : zen_extension_t)
    (hw : w.stack = TValue.string n :: rest)
    (hclassic : ∀ q ∈ lualibs, strcmp q.name n ≠ 0)
    (hreg : h.zen_extensions = pre ++ p :: post)
    (hpre : ∀ q ∈ pre, strcasecmp q.name n ≠ 0) (hp : strcasecmp p.name n = 0) :
    zen_require h w = zen_exec_extension h w p := by
  simp only [zen_require, lua_tolstring_string h w n rest hw, find_no_classic n hclassic,
    find_first_match _ pre post p n hreg hpre hp]

theorem zen_lua_init_found (h : Host) (w : World)
    (pre post : List zen_extension_t) (p : zen_extension_t)
    (hreg : h.zen_extensions = pre ++ p :: post)
    (hpre : ∀ q ∈ pre, strcasecmp q.name "init" ≠ 0)
    (hp : strcasecmp p.name "init" = 0) :
    zen_lua_init h w = zen_exec_extension h (func w "loading lua initialisation") p := by
  simp only [zen_lua_init, find_first_match _ pre post p "init" hreg hpre hp]

theorem truncate_intCast (z : Int) : truncate (z : ℚ) = z := by
  unfold truncate
  split <;> simp

theorem truncate_div (m : Int) (d : Nat) (hd : 0 < d) :
    truncate ((m : ℚ) / (d : ℚ)) = Int.tdiv m d := by
  have hdq : (0 : ℚ) < (d : ℚ) := by exact_mod_cast hd
  unfold truncate
  by_cases hm : 0 ≤ m
  · have hq : (0 : ℚ) ≤ (m : ℚ) / (d : ℚ) := div_nonneg (by exact_mod_cast hm) hdq.le
    rw [if_pos hq, Rat.floor_intCast_div_natCast, Int.tdiv_eq_ediv hm (by positivity)]
  · have hneg : m < 0 := not_le.mp hm
    have hq : ¬ (0 : ℚ) ≤ (m : ℚ) / (d : ℚ) := by
      rw [not_le]
      exact div_neg_of_neg_of_pos (by exact_mod_cast hneg) hdq
    rw [if_neg hq]
    have h1 : ⌈(m : ℚ) / (d : ℚ)⌉ = -⌊((-m : ℤ) : ℚ) / (d : ℚ)⌋ := by
      rw [← Int.ceil_neg]
      congr 1
      push_cast
      ring
    rw [h1, Rat.floor_intCast_div_natCast, ← Int.tdiv_eq_ediv (by omega) (by positivity),
      Int.neg_tdiv, neg_neg]

theorem discard_fraction (m e : Int) :
    (if 0 ≤ e then m * 2 ^ e.toNat else Int.tdiv m (2 ^ (-e).toNat))
      = truncate (dyadic m e) := by
  unfold dyadic
  split
  · rename_i he
    obtain ⟨k, rfl⟩ := Int.eq_ofNat_of_zero_le he
    rw [← truncate_intCast (m * 2 ^ (k : ℤ).toNat)]
    congr 1
    simp [zpow_natCast]
  · rename_i he
    obtain ⟨k, hk⟩ := Int.eq_ofNat_of_zero_le (show 0 ≤ -e by omega)
    have hek : e = -(k : ℤ) := by omega
    subst hek
    have hk2 : (-(-(k : ℤ))).toNat = k := by simp
    rw [hk2]
    have h2 : ((2 : ℤ) ^ k) = ((2 ^ k : ℕ) : ℤ) := by push_cast; rfl
    rw [h2, ← truncate_div m (2 ^ k) (by positivity)]
    congr 1
    rw [zpow_neg, zpow_natCast]
    push_cast
    rw [div_eq_mul_inv]

theorem c_int_of_double_finite (m e : Int)
    (hmin : INT_MIN ≤ truncate (dyadic m e)) (hmax : truncate (dyadic m e) ≤ INT_MAX) :
    c_int_of_double (lua_Number.finite m e) = some (truncate (dyadic m e)) := by
  simp only [c_int_of_double]
  rw [discard_fraction]
  simp [hmin, hmax]

theorem truncate_example_neg : truncate (dyadic (-7) (-1)) = -3 := by
  rw [← discard_fraction]
  decide

theorem truncate_example_big : truncate (dyadic 1 31) = 2147483648 := by
  rw [← discard_fraction]
  decide

/-! ## The claims -/

/-- Claim C1.  After `zen_require_override` with a non-zero `restricted` flag
the global `require` holds `nop`, and a call of `require` with any arguments,
on any host, ends in the abort of `lerror` with the message
"illegal instruction: require"; it leaves the globals, the loaded modules and
the exit code as they were and adds nothing else to the log: no library is
installed, no blob is loaded or run, no open function is called. -/
theorem restricted_require_is_fatal (h : Host) (w : World) (restricted : Int)
    (args : List TValue) (hr : restricted ≠ 0) :
    (zen_require_override w restricted).1 = 1 ∧
    getfield (zen_require_override w restricted).2.globals "require"
      = some (TValue.cfunction CFunction.nop) ∧
    call_global h (zen_require_override w restricted).2 "require" args
      = some (Outcome.fatal,
          { stack := args
            globals := (zen_require_override w restricted).2.globals
            loaded := w.loaded
            EXITCODE := w.EXITCODE
            trace := w.trace ++ [Event.lerror "illegal instruction: require"] }) := by
  rw [zen_require_override_restricted w restricted hr]
  refine ⟨rfl, getfield_setfield _ _ _, ?_⟩
  simp only [call_global, custom_require_restricted, List.foldl, getfield_setfield,
    call_cfunction, nop, lerror]

/-- Claim C1 at a concrete input: restricted flag `1`, then `require("table")`
on a host whose registry and tables could serve the name. -/
theorem restricted_require_is_fatal_witness :
    (1 : Int) ≠ 0 ∧
    call_global demo_host (zen_require_override empty_world 1).2 "require"
        [TValue.string "table"]
      = some (Outcome.fatal,
          { stack := [TValue.string "table"]
            globals := (zen_require_override empty_world 1).2.globals
            loaded := []
            EXITCODE := 0
            trace := [Event.lerror "illegal instruction: require"] }) :=
  ⟨by decide,
    (restricted_require_is_fatal demo_host empty_world 1 [TValue.string "table"]
      (by decide)).2.2⟩

/-- Claim C2, evaluated on the code: with an extension named `init` in the
registry, `require("init")` through `zen_require` loads and runs the blob of
`init` and returns `1` with the value of the chunk on the stack. -/
theorem require_init_runs_init_blob :
    zen_require demo_host (world_with [TValue.string "init"])
      = (Outcome.returned 1,
          { stack := [TValue.string "init", TValue.object 100]
            globals := []
            loaded := []
            EXITCODE := 0
            trace := [Event.luaL_loadbufferx [27, 76, 117] 3 "init" none,
              Event.lua_call 0 1, Event.func "loaded init"] }) := by
  decide

/-- Claim C3.  For every row `p` of `lualibs` and every host (whatever its
extension registry holds), `zen_require` on the name of `p` returns `1` after
the single call `luaL_requiref(L, p->name, p->func, 1)`: the log gains that
one event and no load, no call of a chunk and no other open function. -/
theorem classic_require_installs_library (h : Host) (w : World) (p : luaL_Reg)
    (rest : List TValue) (hp : p ∈ lualibs) (hw : w.stack = TValue.string p.name :: rest) :
    zen_require h w = (Outcome.returned 1, luaL_requiref h w p.name p.func 1) ∧
    (luaL_requiref h w p.name p.func 1).trace
      = w.trace ++ [Event.luaL_requiref p.name p.func 1] ∧
    (getfield w.loaded p.name = none →
      getfield (luaL_requiref h w p.name p.func 1).globals p.name
        = some (h.luaopen p.func p.name)) := by
  refine ⟨?_, ?_, ?_⟩
  · simp only [zen_require, lua_tolstring_string h w p.name rest hw, find_lualibs p hp]
  · simp only [luaL_requiref]
    split <;> split <;> rfl
  · intro hfresh
    simp [luaL_requiref, hfresh, lua_toboolean, getfield_setfield]

/-- Claim C3 at a concrete input: `require("table")` on a host whose registry
has an extension named `table`. -/
theorem classic_require_installs_library_witness :
    (⟨"table", CFunction.luaopen_table⟩ : luaL_Reg) ∈ lualibs ∧
    zen_require host_shadow (world_with [TValue.string "table"])
      = (Outcome.returned 1,
          luaL_requiref host_shadow (world_with [TValue.string "table"]) "table"
            CFunction.luaopen_table 1) ∧
    (luaL_requiref host_shadow (world_with [TValue.string "table"]) "table"
        CFunction.luaopen_table 1).trace
      = [Event.luaL_requiref "table" CFunction.luaopen_table 1] :=
  ⟨by decide,
    (classic_require_installs_library host_shadow (world_with [TValue.string "table"])
      ⟨"table", CFunction.luaopen_table⟩ [] (by decide) rfl).1,
    (classic_require_installs_library host_shadow (world_with [TValue.string "table"])
      ⟨"table", CFunction.luaopen_table⟩ [] (by decide) rfl).2.1⟩

/-- Claim C4 fails as stated: `broken` is not a classic name and matches the
extension `broken`, which is not named `init`, yet `zen_require` runs no chunk
and does not return `1`: the blob does not compile and the call ends in the
abort of `lerror`. -/
theorem extension_require_broken_blob :
    (∀ q ∈ lualibs, strcmp q.name "broken" ≠ 0) ∧
    demo_host.zen_extensions.find? (fun q => strcasecmp q.name "broken" = 0)
      = some ⟨"broken", 0, []⟩ ∧
    zen_require demo_host (world_with [TValue.string "broken"])
      = (Outcome.fatal,
          { stack := [TValue.string "broken", TValue.string "broken:1: unexpected symbol"]
            globals := []
            loaded := []
            EXITCODE := 0
            trace := [Event.luaL_loadbufferx [] 0 "broken" none,
              Event.error "zen_load_string syntax error: broken",
              Event.error "broken:1: unexpected symbol",
              Event.lerror "zen_exec_extension broken"] }) ∧
    (zen_require demo_host (world_with [TValue.string "broken"])).2.trace.countP
      Event.is_call = 0 := by
  decide

/-- Claim C4 as amended.  Let `n` be no classic name and let `p`, not named
`init`, be the first entry of the registry whose name equals `n` up to letter
case.  If the blob of `p` loads with `LUA_OK` and its chunk runs to a value
`v`, then `zen_require` on `n` makes one load, of the blob of `p` under the
name of `p`, then one `lua_call` with no argument and one result, and returns
`1` with `v` on top of the stack; it calls no open function, whatever the
native chain holds for `n`. -/
theorem extension_require_runs_blob (h : Host) (w : World) (n : String)
    (rest : List TValue) (pre post : List zen_extension_t) (p : zen_extension_t)
    (v : TValue)
    (hw : w.stack = TValue.string n :: rest)
    (hclassic : ∀ q ∈ lualibs, strcmp q.name n ≠ 0)
    (hreg : h.zen_extensions = pre ++ p :: post)
    (hpre : ∀ q ∈ pre, strcasecmp q.name n ≠ 0) (hp : strcasecmp p.name n = 0)
    (_hinit : p.name ≠ "init")
    (hload : (h.luaL_loadbufferx p.code p.size p.name (load_mode h)).1 = LUA_OK)
    (hrun : h.run (h.luaL_loadbufferx p.code p.size p.name (load_mode h)).2
      = CallResult.value v) :
    zen_require h w = (Outcome.returned 1,
      { w with
        stack := w.stack ++ [v]
        trace := w.trace ++ [Event.luaL_loadbufferx p.code p.size p.name (load_mode h),
          Event.lua_call 0 1, Event.func ("loaded " ++ p.name)] }) := by
  rw [zen_require_extension h w n rest pre post p hw hclassic hreg hpre hp]
  exact zen_exec_extension_ok h w p v hload hrun

/-- Claim C4 as amended, at a concrete input: `require("ECDH")` on a host
whose registry has an extension `ECDH` after one named `table`; the name is
also that of a native module. -/
theorem extension_require_runs_blob_witness :
    (∀ q ∈ lualibs, strcmp q.name "ecdh" ≠ 0) ∧
    native_loader "ecdh" = some CFunction.luaopen_ecdh ∧
    zen_require host_shadow (world_with [TValue.string "ecdh"])
      = (Outcome.returned 1,
          { world_with [TValue.string "ecdh"] with
            stack := [TValue.string "ecdh"] ++ [TValue.object 100]
            trace := [] ++ [Event.luaL_loadbufferx [27, 76] 2 "ECDH" (load_mode host_shadow),
              Event.lua_call 0 1, Event.func ("loaded " ++ "ECDH")] }) :=
  ⟨by decide, by decide,
    extension_require_runs_blob host_shadow (world_with [TValue.string "ecdh"]) "ecdh" []
      [⟨"table", 2, [27, 76]⟩] [] ⟨"ECDH", 2, [27, 76]⟩ (TValue.object 100)
      rfl (by decide) rfl (by decide) (by decide) (by decide) (by decide) (by decide)⟩

/-- Claim C5.  For a name `n` that no row of `lualibs` equals, that no entry
of the registry equals up to letter case and that no name of the native chain
equals up to letter case, `zen_require` writes the warning
"required extension not found: n" and returns `0`; nothing else changes: no
module is installed, nothing is loaded, and the outcome is a return, not an
abort. -/
theorem unknown_require_warns (h : Host) (w : World) (n : String) (rest : List TValue)
    (hw : w.stack = TValue.string n :: rest)
    (hclassic : ∀ p ∈ lualibs, strcmp p.name n ≠ 0)
    (hext : ∀ p ∈ h.zen_extensions, strcasecmp p.name n ≠ 0)
    (hnative : ∀ m ∈ native_names, strcasecmp n m ≠ 0) :
    zen_require h w = (Outcome.returned 0,
      { w with
        trace := w.trace ++ [Event.warning ("required extension not found: " ++ n)] }) := by
  have h2 : h.zen_extensions.find? (fun p => strcasecmp p.name n = 0) = none := by
    rw [List.find?_eq_none]
    intro p hp
    simpa using hext p hp
  simp only [zen_require, lua_tolstring_string h w n rest hw, find_no_classic n hclassic, h2,
    native_loader_none n hnative, warning]

/-- Claim C5 at a concrete input: `require("Table")`. -/
theorem unknown_require_warns_witness :
    (∀ p ∈ lualibs, strcmp p.name "Table" ≠ 0) ∧
    (∀ p ∈ demo_host.zen_extensions, strcasecmp p.name "Table" ≠ 0) ∧
    (∀ m ∈ native_names, strcasecmp "Table" m ≠ 0) ∧
    zen_require demo_host (world_with [TValue.string "Table"])
      = (Outcome.returned 0,
          { world_with [TValue.string "Table"] with
            trace := [] ++ [Event.warning ("required extension not found: " ++ "Table")] }) :=
  ⟨by decide, by decide, by decide,
    unknown_require_warns demo_host (world_with [TValue.string "Table"]) "Table" []
      rfl (by decide) (by decide) (by decide)⟩

/-- Claim C7 fails as stated: the argument `2 ^ 31` is a number whose value
with the fraction discarded is `2147483648`, yet `zen_exitcode` does not set
the exit code to it: the value does not fit an `int` and the conversion has no
defined result. -/
theorem exitcode_out_of_int_range :
    lua_tonumberx demo_host (world_with [TValue.float (lua_Number.finite 1 31)]) 1
      = (lua_Number.finite 1 31, 1) ∧
    truncate (dyadic 1 31) = 2147483648 ∧
    INT_MAX < 2147483648 ∧
    zen_exitcode demo_host (world_with [TValue.float (lua_Number.finite 1 31)])
      = (Outcome.undefined, world_with [TValue.float (lua_Number.finite 1 31)]) :=
  ⟨by decide, truncate_example_big, by decide, by decide⟩

/-- Claim C7 as amended.  Whatever the exit code was before: when the
argument is a finite number `m * 2 ^ e` whose value with the fraction
discarded fits an `int`, `zen_exitcode` sets the exit code to that value; when
the argument is not a number it sets the exit code to `-1`; in both cases
nothing else changes, the new exit code does not depend on the old one and
the call returns `0` values.  So `exitcode(42)` gives `42`, and
`exitcode("x")` gives `-1` on an interpreter that reads no number in `x`. -/
theorem exitcode_sets_exit_code (h : Host) (stack : List TValue)
    (g l : List (String × TValue)) (prev : Int) (tr : List Event) :
    (∀ m e, lua_tonumberx h ⟨stack, g, l, prev, tr⟩ 1 = (lua_Number.finite m e, 1) →
      INT_MIN ≤ truncate (dyadic m e) → truncate (dyadic m e) ≤ INT_MAX →
      zen_exitcode h ⟨stack, g, l, prev, tr⟩
        = (Outcome.returned 0, ⟨stack, g, l, truncate (dyadic m e), tr⟩)) ∧
    ((lua_tonumberx h ⟨stack, g, l, prev, tr⟩ 1).2 = 0 →
      zen_exitcode h ⟨stack, g, l, prev, tr⟩ = (Outcome.returned 0, ⟨stack, g, l, -1, tr⟩)) ∧
    zen_exitcode h ⟨[TValue.integer 42], g, l, prev, tr⟩
      = (Outcome.returned 0, ⟨[TValue.integer 42], g, l, 42, tr⟩) ∧
    (h.str2num "x" = none →
      zen_exitcode h ⟨[TValue.string "x"], g, l, prev, tr⟩
        = (Outcome.returned 0, ⟨[TValue.string "x"], g, l, -1, tr⟩)) := by
  refine ⟨?_, ?_, ?_, ?_⟩
  · intro m e hnum hmin hmax
    simp [zen_exitcode, hnum, c_int_of_double_finite m e hmin hmax]
  · intro hz
    simp [zen_exitcode, hz]
  · have hc : c_int_of_double (lua_Number.finite 42 0) = some 42 := by decide
    simp [zen_exitcode, lua_tonumberx, index2value, hc]
  · intro hx
    simp [zen_exitcode, lua_tonumberx, index2value, hx]

/-- Claim C7 as amended, at concrete inputs: `exitcode(-3.5)` after an exit
code of `9` gives `-3`, `exitcode(nil)` gives `-1`, `exitcode("x")` gives
`-1`. -/
theorem exitcode_sets_exit_code_witness :
    lua_tonumberx demo_host
      ⟨[TValue.float (lua_Number.finite (-7) (-1))], [], [], 9, []⟩ 1
      = (lua_Number.finite (-7) (-1), 1) ∧
    INT_MIN ≤ truncate (dyadic (-7) (-1)) ∧ truncate (dyadic (-7) (-1)) ≤ INT_MAX ∧
    truncate (dyadic (-7) (-1)) = -3 ∧
    zen_exitcode demo_host ⟨[TValue.float (lua_Number.finite (-7) (-1))], [], [], 9, []⟩
      = (Outcome.returned 0,
          ⟨[TValue.float (lua_Number.finite (-7) (-1))], [], [],
            truncate (dyadic (-7) (-1)), []⟩) ∧
    zen_exitcode demo_host ⟨[TValue.nil], [], [], 9, []⟩
      = (Outcome.returned 0, ⟨[TValue.nil], [], [], -1, []⟩) ∧
    zen_exitcode demo_host ⟨[TValue.string "x"], [], [], 9, []⟩
      = (Outcome.returned 0, ⟨[TValue.string "x"], [], [], -1, []⟩) :=
  ⟨by decide, by rw [truncate_example_neg]; decide, by rw [truncate_example_neg]; decide,
    truncate_example_neg,
    (exitcode_sets_exit_code demo_host [TValue.float (lua_Number.finite (-7) (-1))]
      [] [] 9 []).1 (-7) (-1) (by decide) (by rw [truncate_example_neg]; decide)
      (by rw [truncate_example_neg]; decide),
    (exitcode_sets_exit_code demo_host [TValue.nil] [] [] 9 []).2.1 (by decide),
    (exitcode_sets_exit_code demo_host [] [] [] 9 []).2.2.2 (by decide)⟩

/-- Claim C8.  When no entry of the registry is named `init` in any letter
case, `zen_lua_init` loads nothing and ends in the abort of `lerror` with the
message "Error loading lua init script".  When there is one, `zen_lua_init`
is `zen_exec_extension` on the first such entry; and if the blob of that
entry loads and its chunk raises an error, the error leaves `zen_lua_init`
through the unprotected `lua_call`: the process is aborted and no value is
returned. -/
theorem bootstrap_needs_init (h : Host) (w : World) :
    ((∀ q ∈ h.zen_extensions, strcasecmp q.name "init" ≠ 0) →
      zen_lua_init h w = (Outcome.fatal,
        { w with
          trace := w.trace ++ [Event.func "loading lua initialisation",
            Event.lua_gc LUA_GCCOLLECT 0, Event.lua_gc LUA_GCCOLLECT 0,
            Event.lerror "Error loading lua init script"] })) ∧
    (∀ pre p post, h.zen_extensions = pre ++ p :: post →
      (∀ q ∈ pre, strcasecmp q.name "init" ≠ 0) → strcasecmp p.name "init" = 0 →
      zen_lua_init h w = zen_exec_extension h (func w "loading lua initialisation") p ∧
      (∀ err, (h.luaL_loadbufferx p.code p.size p.name (load_mode h)).1 = LUA_OK →
        h.run (h.luaL_loadbufferx p.code p.size p.name (load_mode h)).2
          = CallResult.error err →
        zen_lua_init h w = (Outcome.raised err,
          { w with
            stack := w.stack ++ [(h.luaL_loadbufferx p.code p.size p.name (load_mode h)).2]
            trace := w.trace ++ [Event.func "loading lua initialisation",
              Event.luaL_loadbufferx p.code p.size p.name (load_mode h),
              Event.lua_call 0 1] }) ∧
        (zen_lua_init h w).1.aborts = true ∧
        ∀ n, (zen_lua_init h w).1 ≠ Outcome.returned n)) := by
  constructor
  · intro hnone
    have hfind : h.zen_extensions.find? (fun p => strcasecmp p.name "init" = 0) = none := by
      rw [List.find?_eq_none]
      intro q hq
      simpa using hnone q hq
    simp [zen_lua_init, hfind, lua_gc, lerror, func]
  · intro pre p post hreg hpre hp
    have hfound := zen_lua_init_found h w pre post p hreg hpre hp
    refine ⟨hfound, ?_⟩
    intro err hload hrun
    rw [hfound, zen_exec_extension_raised h _ p err hload hrun]
    refine ⟨by simp [func], rfl, ?_⟩
    intro n hn
    cases hn

/-- Claim C8 at concrete inputs: a registry without `init`, and a registry
whose `Init` raises an error when run. -/
theorem bootstrap_needs_init_witness :
    (∀ q ∈ host_without_init.zen_extensions, strcasecmp q.name "init" ≠ 0) ∧
    zen_lua_init host_without_init empty_world = (Outcome.fatal,
      { empty_world with
        trace := empty_world.trace ++ [Event.func "loading lua initialisation",
          Event.lua_gc LUA_GCCOLLECT 0, Event.lua_gc LUA_GCCOLLECT 0,
          Event.lerror "Error loading lua init script"] }) ∧
    strcasecmp "Init" "init" = 0 ∧
    (zen_lua_init host_init_raising empty_world).1
      = Outcome.raised (TValue.string "attempt to call a nil value") ∧
    (zen_lua_init host_init_raising empty_world).1.aborts = true :=
  ⟨by decide,
    (bootstrap_needs_init host_without_init empty_world).1 (by decide),
    by decide,
    congrArg Prod.fst
      (((bootstrap_needs_init host_init_raising empty_world).2 [⟨"json", 2, [27, 76]⟩]
        ⟨"Init", 1, [27]⟩ [] rfl (by decide) (by decide)).2
          (TValue.string "attempt to call a nil value") (by decide) (by decide)).1,
    (((bootstrap_needs_init host_init_raising empty_world).2 [⟨"json", 2, [27, 76]⟩]
        ⟨"Init", 1, [27]⟩ [] rfl (by decide) (by decide)).2
          (TValue.string "attempt to call a nil value") (by decide) (by decide)).2.1⟩

/-- Claim C9.  When the load of the blob of `p` returns any status other than
`LUA_OK`, `zen_exec_extension` ends in the abort of `lerror`: after the load
it writes error lines only, the message of the load among them, then the
`lerror` line; it makes no `lua_call`, writes no warning and returns nothing.
The same holds when `zen_require` reaches `p` (the name is no classic name
and `p` is the first entry that equals it up to letter case) and when
`zen_lua_init` reaches `p` (the first entry named `init` in any letter
case). -/
theorem load_failure_is_fatal (h : Host) (p : zen_extension_t)
    (hfail : (h.luaL_loadbufferx p.code p.size p.name (load_mode h)).1 ≠ LUA_OK) :
    (∀ w, LoadFailureAbort h p w (zen_exec_extension h w p)) ∧
    (∀ w n rest pre post, w.stack = TValue.string n :: rest →
      (∀ q ∈ lualibs, strcmp q.name n ≠ 0) → h.zen_extensions = pre ++ p :: post →
      (∀ q ∈ pre, strcasecmp q.name n ≠ 0) → strcasecmp p.name n = 0 →
      LoadFailureAbort h p w (zen_require h w)) ∧
    (∀ w pre post, h.zen_extensions = pre ++ p :: post →
      (∀ q ∈ pre, strcasecmp q.name "init" ≠ 0) → strcasecmp p.name "init" = 0 →
      LoadFailureAbort h p (func w "loading lua initialisation") (zen_lua_init h w)) := by
  refine ⟨fun w => zen_exec_extension_failed h w p hfail, ?_, ?_⟩
  · intro w n rest pre post hw hclassic hreg hpre hp
    rw [zen_require_extension h w n rest pre post p hw hclassic hreg hpre hp]
    exact zen_exec_extension_failed h w p hfail
  · intro w pre post hreg hpre hp
    rw [zen_lua_init_found h w pre post p hreg hpre hp]
    exact zen_exec_extension_failed h _ p hfail

/-- Claim C9 at concrete inputs: the extension `broken`, run directly and
through `require("BROKEN")`, and a registry whose `Init` does not compile. -/
theorem load_failure_is_fatal_witness :
    (demo_host.luaL_loadbufferx [] 0 "broken" (load_mode demo_host)).1 ≠ LUA_OK ∧
    LoadFailureAbort demo_host ⟨"broken", 0, []⟩ empty_world
      (zen_exec_extension demo_host empty_world ⟨"broken", 0, []⟩) ∧
    LoadFailureAbort demo_host ⟨"broken", 0, []⟩ (world_with [TValue.string "BROKEN"])
      (zen_require demo_host (world_with [TValue.string "BROKEN"])) ∧
    LoadFailureAbort host_init_broken ⟨"Init", 0, []⟩
      (func empty_world "loading lua initialisation")
      (zen_lua_init host_init_broken empty_world) :=
  ⟨by decide,
    (load_failure_is_fatal demo_host ⟨"broken", 0, []⟩ (by decide)).1 empty_world,
    (load_failure_is_fatal demo_host ⟨"broken", 0, []⟩ (by decide)).2.1
      (world_with [TValue.string "BROKEN"]) "BROKEN" []
      [⟨"init", 3, [27, 76, 117]⟩, ⟨"json", 2, [27, 76]⟩] [] rfl (by decide) rfl
      (by decide) (by decide),
    (load_failure_is_fatal host_init_broken ⟨"Init", 0, []⟩ (by decide)).2.2
      empty_world [⟨"json", 2, [27, 76]⟩] [] rfl (by decide) (by decide)⟩

/-- Claim C10, evaluated on the code: with an `init` that loads and runs,
`zen_lua_init` returns `1` straight from `zen_exec_extension`; the log holds
no call of `lua_gc`. -/
theorem init_success_skips_collection :
    zen_lua_init demo_host empty_world
      = (Outcome.returned 1,
          { stack := [TValue.object 100]
            globals := []
            loaded := []
            EXITCODE := 0
            trace := [Event.func "loading lua initialisation",
              Event.luaL_loadbufferx [27, 76, 117] 3 "init" none,
              Event.lua_call 0 1, Event.func "loaded init"] }) ∧
    (zen_lua_init demo_host empty_world).2.trace.countP Event.is_gc = 0 := by
  decide

end Zenroom
